import Mathlib

/-!
Shallow embedding of `parsec.py`, a client for the Padova/PARSEC CMD
isochrone web service.  Python dicts are modelled extensionally as lookup
functions `String → Option FVal`, Python numbers as rationals, and Python
exceptions as an explicit error type threaded through `Except`.  The
network and parsing collaborators (HTTP post/get, URL joining, gzip, the
tabular decoder) are parameters, as are the transcendental functions
`10**x` and `np.log10` used by the legacy translator.
-/

namespace Parsec

/-- Value stored in a form-field mapping: strings, numbers, the NaN that
`np.diff(x).mean()` produces on an empty difference array, Python `None`,
and lists of values as they occur in scraped defaults or stray arrays. -/
inductive FVal where
  | str (s : String)
  | num (q : ℚ)
  | nan
  | noneV
  | numList (xs : List ℚ)
  | strList (xs : List String)
  deriving DecidableEq

/-- Python exceptions raised by the code: `valueError msg` for the explicit
raise sites, plus the implicit key, index, type, attribute and name errors
the interpreter raises on its own. -/
inductive QErr where
  | valueError (msg : String)
  | keyError (key : String)
  | indexError
  | typeError
  | attributeError
  | nameError (v : String)
  deriving DecidableEq

/-- A physical query parameter as passed by the caller: Python `None`,
a bare number, or a numeric sequence (list or ndarray). -/
inductive Phys where
  | none
  | scalar (x : ℚ)
  | arr (xs : List ℚ)
  deriving DecidableEq

/-- `isscalar` from `parsec.py`: `None` counts as scalar; otherwise
`np.isscalar`, which is true for a bare number and false for any sequence,
even one of length 1 or 0. -/
def isscalar : Phys → Bool
  | .none => true
  | .scalar _ => true
  | .arr _ => false

/-- A Python dict, modelled extensionally by its lookup function. -/
abbrev Args : Type := String → Option FVal

/-- Dict item assignment, as performed key by key by `dict.update`. -/
def setKey (m : Args) (k : String) (v : FVal) : Args :=
  fun q => if q = k then some v else m q

/-- The empty keyword-argument dict. -/
def noArgs : Args := fun _ => Option.none

/-- Python dict merge of `d` with `a`: entries of `a` win on key collision. -/
def dictMerge (d a : Args) : Args :=
  fun k =>
    match a k with
    | some v => some v
    | Option.none => d k

/-- Python `x[0]` on a sequence: an `IndexError` when it is empty. -/
def firstElem : List ℚ → Except QErr ℚ
  | [] => .error .indexError
  | a :: _ => .ok a

/-- Python `x[-1]` on a sequence: an `IndexError` when it is empty. -/
def lastElem : List ℚ → Except QErr ℚ
  | [] => .error .indexError
  | [a] => .ok a
  | _ :: b :: rest => lastElem (b :: rest)

/-- Last element of a nonempty rational list, with 0 as fallback. -/
def lastD : List ℚ → ℚ
  | [] => 0
  | [a] => a
  | _ :: b :: rest => lastD (b :: rest)

/-- `np.diff`: the list of consecutive differences. -/
def diffList : List ℚ → List ℚ
  | [] => []
  | [_] => []
  | a :: b :: rest => (b - a) :: diffList (b :: rest)

/-- Arithmetic mean of a rational list (division by zero when empty). -/
def meanQ (xs : List ℚ) : ℚ := xs.sum / (xs.length : ℚ)

/-- `.mean()` of an array: NaN when the array is empty. -/
def meanVal (xs : List ℚ) : FVal :=
  if xs.length = 0 then .nan else .num (meanQ xs)

/-- `np.diff(x).mean()`. -/
def diffMean (xs : List ℚ) : FVal := meanVal (diffList xs)

/-- Code-point comparison of character lists, as Python compares strings. -/
def pyChLt : List Char → List Char → Bool
  | [], [] => false
  | [], _ :: _ => true
  | _ :: _, [] => false
  | a :: as, b :: bs =>
    if a.val < b.val then true
    else if a.val = b.val then pyChLt as bs
    else false

/-- Python `a >= b` on strings: not lexicographically less. -/
def pyStrGe (a b : String) : Bool := ! pyChLt a.data b.data

/-- Whether the first character list is a leading part of the second. -/
def chPre : List Char → List Char → Bool
  | [], _ => true
  | _ :: _, [] => false
  | a :: as, b :: bs => a = b && chPre as bs

/-- Python `s.startswith(p)`. -/
def strStarts (s p : String) : Bool := chPre p.data s.data

/-- Python `s.endswith(p)`. -/
def strEnds (s p : String) : Bool := chPre p.data.reverse s.data.reverse

/-- Python `"".join(xs)`. -/
def joinAll : List String → String
  | [] => ""
  | s :: rest => s ++ joinAll rest

/-- Python `"\n".join(xs)`. -/
def joinNL : List String → String
  | [] => ""
  | [s] => s
  | s :: rest => s ++ "\n" ++ joinNL rest

/-- Message of the ValueError raised when neither age form is supplied. -/
def msgMissingAge : String := "Must provide one of \x27t\x27 or \x27lgt\x27!"

/-- Message of the ValueError raised when neither metallicity form is supplied. -/
def msgMissingMet : String := "Must provide one of \x27Z\x27 or \x27MeH\x27!"

/-- Message of the ValueError raised by the legacy translator when both the
age and the metallicity parameter are array-valued. -/
def msgConflict : String := "At most one array is allowed for \x27t\x27 and \x27Z\x27!"

/-- Message of the ValueError raised on an unsupported version string. -/
def msgUnknownVersion : String := "Unknown cmd version!"

/-- Field translation of `_query_isochrones_cmd3`, everything before the
final `self.query` call: the caller keyword-override dict `args` is updated
in place with the computed fields, keyword by keyword, so the computed
fields overwrite colliding overrides. -/
def cmd3Args (t lgt Z MeH : Phys) (extinction_av : ℚ) (args : Args) :
    Except QErr Args :=
  let ageRes : Except QErr Args :=
    match t with
    | .scalar x =>
        .ok (setKey (setKey (setKey args "isoc_isagelog" (.num 0))
          "isoc_agelow" (.num x)) "isoc_dage" (.num 0))
    | .arr xs =>
        match firstElem xs, lastElem xs with
        | .ok x0, .ok x1 =>
            .ok (setKey (setKey (setKey (setKey args "isoc_isagelog" (.num 0))
              "isoc_agelow" (.num x0)) "isoc_ageupp" (.num x1))
              "isoc_dage" (diffMean xs))
        | .error e, _ => .error e
        | _, .error e => .error e
    | .none =>
        match lgt with
        | .scalar x =>
            .ok (setKey (setKey (setKey args "isoc_isagelog" (.num 1))
              "isoc_lagelow" (.num x)) "isoc_dlage" (.num 0))
        | .arr xs =>
            match firstElem xs, lastElem xs with
            | .ok x0, .ok x1 =>
                .ok (setKey (setKey (setKey (setKey args "isoc_isagelog" (.num 1))
                  "isoc_lagelow" (.num x0)) "isoc_lageupp" (.num x1))
                  "isoc_dlage" (diffMean xs))
            | .error e, _ => .error e
            | _, .error e => .error e
        | .none => .error (.valueError msgMissingAge)
  match ageRes with
  | .error e => .error e
  | .ok a1 =>
    let metRes : Except QErr Args :=
      match Z with
      | .scalar z =>
          .ok (setKey (setKey (setKey a1 "isoc_ismetlog" (.num 0))
            "isoc_zlow" (.num z)) "isoc_dz" (.num 0))
      | .arr zs =>
          match firstElem zs, lastElem zs with
          | .ok z0, .ok z1 =>
              .ok (setKey (setKey (setKey (setKey a1 "isoc_ismetlog" (.num 0))
                "isoc_zlow" (.num z0)) "isoc_zupp" (.num z1))
                "isoc_dz" (diffMean zs))
          | .error e, _ => .error e
          | _, .error e => .error e
      | .none =>
          match MeH with
          | .scalar m =>
              .ok (setKey (setKey (setKey a1 "isoc_ismetlog" (.num 1))
                "isoc_metlow" (.num m)) "isoc_dmet" (.num 0))
          | .arr ms =>
              match firstElem ms, lastElem ms with
              | .ok m0, .ok m1 =>
                  .ok (setKey (setKey (setKey (setKey a1 "isoc_ismetlog" (.num 1))
                    "isoc_metlow" (.num m0)) "isoc_metupp" (.num m1))
                    "isoc_dmet" (diffMean ms))
              | .error e, _ => .error e
              | _, .error e => .error e
          | .none => .error (.valueError msgMissingMet)
    match metRes with
    | .error e => .error e
    | .ok a2 => .ok (setKey a2 "extinction_av" (.num extinction_av))

/-- View of a normalized physical parameter as a dict value, used where the
legacy translator stores a parameter into the field dict as it stands. -/
def physVal : Phys → FVal
  | .none => .noneV
  | .scalar x => .num x
  | .arr xs => .numList xs

/-- Field translation of `_query_isochrones_cmd2`.  `pow10` and `log10`
stand for the transcendental functions `10**x` and `np.log10`, treated as
parameters; `argsDefault` is the stored `self.args_default` mapping,
consulted for the `isoc_kind` track-selection field.  Note the dict-get
with a computed fallback evaluates `self.args_default["isoc_kind"]` before
looking at the per-call overrides, exactly as Python does. -/
def cmd2Args (pow10 log10 : ℚ → ℚ) (argsDefault : Args)
    (t lgt Z MeH : Phys) (extinction_av : ℚ) (args : Args) :
    Except QErr Args :=
  let ageNorm : Except QErr (Phys × Phys) :=
    match t, lgt with
    | .none, .none => .error (.valueError msgMissingAge)
    | .none, .scalar l => .ok (.scalar (pow10 l), .none)
    | .none, .arr ls => .ok (.none, .arr ls)
    | .scalar x, l => .ok (.scalar x, l)
    | .arr xs, _ => .ok (.none, .arr (xs.map log10))
  match ageNorm with
  | .error e => .error e
  | .ok (t2, lgt2) =>
    let metNorm : Except QErr Phys :=
      match Z with
      | .none =>
          match MeH with
          | .none => .error (.valueError msgMissingMet)
          | mh =>
              match argsDefault "isoc_kind" with
              | Option.none => .error (.keyError "isoc_kind")
              | some dflt =>
                  match (args "isoc_kind").getD dflt with
                  | .str kind =>
                      let Zsun : ℚ :=
                        if strStarts kind "parsec" then 0.0152 else 0.019
                      match mh with
                      | .scalar m => .ok (.scalar (Zsun * pow10 m))
                      | .arr ms => .ok (.arr (ms.map (fun m => Zsun * pow10 m)))
                      | .none => .ok .none
                  | _ => .error .attributeError
      | z => .ok z
    match metNorm with
    | .error e => .error e
    | .ok Z2 =>
      if !isscalar lgt2 && !isscalar Z2 then
        .error (.valueError msgConflict)
      else
        let emit : Except QErr Args :=
          match t2 with
          | .none =>
              match lgt2 with
              | .arr ls =>
                  match firstElem ls, lastElem ls with
                  | .ok l0, .ok l1 =>
                      .ok (setKey (setKey (setKey (setKey (setKey args
                        "isoc_val" (.str "1")) "isoc_zeta0" (physVal Z2))
                        "isoc_lage0" (.num l0)) "isoc_lage1" (.num l1))
                        "isoc_dlage" (diffMean ls))
                  | .error e, _ => .error e
                  | _, .error e => .error e
              | _ => .error .typeError
          | tv =>
              match Z2 with
              | .arr zs =>
                  match firstElem zs, lastElem zs with
                  | .ok z0, .ok z1 =>
                      .ok (setKey (setKey (setKey (setKey (setKey args
                        "isoc_val" (.str "2")) "isoc_age0" (physVal tv))
                        "isoc_z0" (.num z0)) "isoc_z1" (.num z1))
                        "isoc_dz" (diffMean zs))
                  | .error e, _ => .error e
                  | _, .error e => .error e
              | z =>
                  .ok (setKey (setKey (setKey args "isoc_val" (.str "0"))
                    "isoc_age" (physVal tv)) "isoc_zeta" (physVal z))
        match emit with
        | .error e => .error e
        | .ok a1 => .ok (setKey a1 "extinction_av" (.num extinction_av))

/-- Result handed back by `query`: either the column names plus raw text
handed to the tabular decoder (`ascii.read`), or the raw decoded text. -/
inductive QueryResult where
  | table (names : List String) (body : String)
  | raw (s : String)
  deriving DecidableEq

/-- What the code extracts from the parsed HTML response: the hrefs of
anchors whose text contains "output", the text nodes under p elements of
the errorwarning class, and the text nodes under the form element. -/
structure ResponseDoc where
  outputHrefs : List String
  errorwarningTexts : List String
  formTexts : List String

/-- Network and parsing collaborators: form submission returning the parsed
response document, URL joining, artifact fetching, gzip decompression. -/
structure Net where
  respond : Args → ResponseDoc
  joinUrl : String → String → String
  fetchBytes : String → String
  gunzip : String → String

/-- Helper for `splitLines`, accumulating the current line reversed. -/
def splitLinesAux : List Char → List Char → List String
  | [], acc => [String.mk acc.reverse]
  | c :: rest, acc =>
      if c = '\n' then String.mk acc.reverse :: splitLinesAux rest []
      else splitLinesAux rest (c :: acc)

/-- Python `str.splitlines` restricted to the newline terminator; unlike
Python this keeps a final empty fragment, which the header scan below
treats identically (it stops at the first line not starting with the
comment marker). -/
def splitLines (s : String) : List String := splitLinesAux s.data []

/-- The header-collection loop of `query`: keep the last leading line that
starts with the comment marker, without the marker; stop at the first line
that does not.  `Option.none` means the loop never assigned `header`. -/
def headerScan : List String → Option String → Option String
  | [], h => h
  | l :: rest, h =>
      match l.data with
      | '#' :: tail => headerScan rest (some (String.mk tail))
      | _ => h

/-- Helper for `splitWS`, accumulating the current fragment reversed. -/
def splitWSAux : List Char → List Char → List String
  | [], [] => []
  | [], acc => [String.mk acc.reverse]
  | c :: rest, acc =>
      if c.isWhitespace then
        match acc with
        | [] => splitWSAux rest []
        | _ => String.mk acc.reverse :: splitWSAux rest []
      else splitWSAux rest (c :: acc)

/-- Python `str.split()` with no argument: split on whitespace runs,
dropping empty fragments. -/
def splitWS (s : String) : List String := splitWSAux s.data []

/-- The table branch of `query`: find the header line, rename a leading
generic Z column to Zini, and hand the names plus text to the tabular
decoder.  With no leading comment line, the Python code reaches
`names = header.split()` with `header` never assigned, a NameError. -/
def parseTable (output : String) : Except QErr QueryResult :=
  match headerScan (splitLines output) Option.none with
  | Option.none => .error (.nameError "header")
  | some h =>
      match splitWS h with
      | [] => .error .indexError
      | n :: rest =>
          .ok (.table ((if n = "Z" then "Zini" else n) :: rest) output)

/-- Response resolution in `query`, after the form post returned `doc`. -/
def resolveResponse (net : Net) (website : String) (retTable : Bool)
    (doc : ResponseDoc) : Except QErr QueryResult :=
  match doc.outputHrefs with
  | href :: _ =>
      let url := net.joinUrl website href
      let raw := net.fetchBytes url
      let output := if strEnds url ".gz" then net.gunzip raw else raw
      if retTable then parseTable output else .ok (.raw output)
  | [] =>
      let m1 := joinAll doc.errorwarningTexts
      if m1 = "" then
        let m2 := joinNL doc.formTexts
        if m2 = "" then
          .error (.valueError "Query failed. No useful information provided.")
        else
          .error (.valueError ("Query failed. Webpage returned:\n" ++ m2 ++ "\n"))
      else
        .error (.valueError
          ("Query failed. Error message:\n" ++ m1 ++ "\nPlease check your inputs!"))

/-- The dict posted by `query`: the stored defaults merged with the
per-call fields, per-call entries winning on key collision. -/
def queryPost (argsDefault args : Args) : Args := dictMerge argsDefault args

/-- `ParsecQuery.query`: post the merged dict, then resolve the response. -/
def runQuery (net : Net) (website : String) (argsDefault : Args)
    (retTable : Bool) (args : Args) : Except QErr QueryResult :=
  resolveResponse net website retTable (net.respond (queryPost argsDefault args))

/-- `_query_isochrones_cmd3` end to end. -/
def queryIsochronesCmd3 (net : Net) (website : String) (argsDefault : Args)
    (t lgt Z MeH : Phys) (extinction_av : ℚ) (retTable : Bool) (args : Args) :
    Except QErr QueryResult :=
  match cmd3Args t lgt Z MeH extinction_av args with
  | .error e => .error e
  | .ok a => runQuery net website argsDefault retTable a

/-- `_query_isochrones_cmd2` end to end. -/
def queryIsochronesCmd2 (pow10 log10 : ℚ → ℚ) (net : Net) (website : String)
    (argsDefault : Args) (t lgt Z MeH : Phys) (extinction_av : ℚ)
    (retTable : Bool) (args : Args) : Except QErr QueryResult :=
  match cmd2Args pow10 log10 argsDefault t lgt Z MeH extinction_av args with
  | .error e => .error e
  | .ok a => runQuery net website argsDefault retTable a

/-- Which translator a `ParsecQuery` instance stores as its
`query_isochrones` entry point. -/
inductive Schema where
  | schema3
  | schema2
  deriving DecidableEq

/-- Version dispatch in the `ParsecQuery` constructor. -/
def selectSchema (version : String) : Except QErr Schema :=
  if version = "cmd" ∨ pyStrGe version "cmd_3" = true then .ok .schema3
  else if pyStrGe version "cmd_2" = true then .ok .schema2
  else .error (.valueError msgUnknownVersion)

/-- A trivial instantiation of the network collaborators, used to evaluate
the translators at concrete inputs. -/
def netTriv : Net :=
  Net.mk (fun _ => ResponseDoc.mk [] [] []) (fun _ _ => "u") (fun _ => "") (fun s => s)

/-- Looking up the key just assigned yields the assigned value. -/
theorem setKey_same (m : Args) (k : String) (v : FVal) : setKey m k v k = some v := by
  simp [setKey]

/-- Assigning one key leaves lookups of other keys unchanged. -/
theorem setKey_diff (m : Args) (k : String) (v : FVal) (q : String) (h : q ≠ k) :
    setKey m k v q = m q := by
  simp [setKey, h]

/-- `lastElem` on a nonempty list returns its last element. -/
theorem lastElem_eq_lastD (a : ℚ) (xs : List ℚ) :
    lastElem (a :: xs) = .ok (lastD (a :: xs)) := by
  induction xs generalizing a with
  | nil => rfl
  | cons b rest ih => exact ih b

/-- `np.diff(x).mean()` on a list with at least two elements is the plain
mean of the consecutive differences. -/
theorem diffMean_two (a b : ℚ) (rest : List ℚ) :
    diffMean (a :: b :: rest) = .num (meanQ (diffList (a :: b :: rest))) := by
  show meanVal (diffList (a :: b :: rest)) = _
  rw [show diffList (a :: b :: rest) = (b - a) :: diffList (b :: rest) from rfl]
  simp [meanVal]

/-- Claim C6: for both translators, a call supplying neither `t` nor `lgt`
fails with the missing-age ValueError, and a call supplying an age but
neither `Z` nor `MeH` fails with the missing-metallicity ValueError; the
failure is independent of every network collaborator, so no submission is
made. -/
theorem claim_C6_missing_parameter (pw lg : ℚ → ℚ) (net : Net) (website : String)
    (argsDefault args : Args) (Z MeH lgt : Phys) (x av : ℚ) (rt : Bool) :
    (queryIsochronesCmd3 net website argsDefault .none .none Z MeH av rt args =
      .error (.valueError msgMissingAge)) ∧
    (queryIsochronesCmd2 pw lg net website argsDefault .none .none Z MeH av rt args =
      .error (.valueError msgMissingAge)) ∧
    (queryIsochronesCmd3 net website argsDefault (.scalar x) lgt .none .none av rt args =
      .error (.valueError msgMissingMet)) ∧
    (queryIsochronesCmd2 pw lg net website argsDefault (.scalar x) lgt .none .none av rt args =
      .error (.valueError msgMissingMet)) :=
  ⟨rfl, rfl, rfl, rfl⟩

/-- Claim C7: with no output anchor in the response, resolution fails, in
order: with the errorwarning text plus the check-your-inputs hint when that
text is non-empty, else with the joined form text when non-empty, else with
the generic no-useful-information message; the result is an error for every
value of `retTable` and every collaborator, so table parsing is never
reached. -/
theorem claim_C7_error_resolution_order (net : Net) (website : String)
    (retTable : Bool) (ews fts : List String) :
    resolveResponse net website retTable (ResponseDoc.mk [] ews fts) =
      (if joinAll ews = "" then
        (if joinNL fts = "" then
          .error (.valueError "Query failed. No useful information provided.")
        else
          .error (.valueError ("Query failed. Webpage returned:\n" ++ joinNL fts ++ "\n")))
      else
        .error (.valueError
          ("Query failed. Error message:\n" ++ joinAll ews ++ "\nPlease check your inputs!"))) :=
  rfl

/-- Claim C8: the version string "cmd", and any string code-point-wise at
least "cmd_3", selects the Schema-3 translator; otherwise any string at
least "cmd_2" selects the Schema-2 translator; any smaller string fails
construction with the unknown-version ValueError. -/
theorem claim_C8_version_dispatch (v : String) :
    ((v = "cmd" ∨ pyStrGe v "cmd_3" = true) → selectSchema v = .ok .schema3) ∧
    (v ≠ "cmd" → pyStrGe v "cmd_3" = false → pyStrGe v "cmd_2" = true →
      selectSchema v = .ok .schema2) ∧
    (v ≠ "cmd" → pyStrGe v "cmd_3" = false → pyStrGe v "cmd_2" = false →
      selectSchema v = .error (.valueError msgUnknownVersion)) := by
  refine ⟨?_, ?_, ?_⟩
  · intro h
    simp [selectSchema, h]
  · intro h1 h2 h3
    simp [selectSchema, h1, h2, h3]
  · intro h1 h2 h3
    simp [selectSchema, h1, h2, h3]

/-- Witness for C8 at the concrete versions "cmd_3.7", "cmd_2.8", "cmd_1". -/
theorem claim_C8_witness :
    selectSchema "cmd_3.7" = .ok .schema3 ∧
    selectSchema "cmd_2.8" = .ok .schema2 ∧
    selectSchema "cmd_1" = .error (.valueError msgUnknownVersion) :=
  ⟨(claim_C8_version_dispatch "cmd_3.7").1 (Or.inr (by decide)),
   (claim_C8_version_dispatch "cmd_2.8").2.1 (by decide) (by decide) (by decide),
   (claim_C8_version_dispatch "cmd_1").2.2 (by decide) (by decide) (by decide)⟩

/-- Claim C10: in the legacy translator, supplying `MeH` without `Z` when
the isoc_kind key is absent from both the per-call overrides and the stored
defaults fails with a KeyError on "isoc_kind", for every network
collaborator, so no submission is made. -/
theorem claim_C10_isoc_kind_keyerror (pw lg : ℚ → ℚ) (net : Net) (website : String)
    (defaults args : Args) (x m av : ℚ) (rt : Bool)
    (hd : defaults "isoc_kind" = Option.none) (_ha : args "isoc_kind" = Option.none) :
    queryIsochronesCmd2 pw lg net website defaults (.scalar x) .none .none (.scalar m)
      av rt args = .error (.keyError "isoc_kind") := by
  simp [queryIsochronesCmd2, cmd2Args, hd]

/-- Witness for C10: empty overrides and empty stored defaults. -/
theorem claim_C10_witness :
    queryIsochronesCmd2 (fun q => q) (fun q => q) netTriv "w" noArgs
      (.scalar 1) .none .none (.scalar 0) 0 true noArgs =
      .error (.keyError "isoc_kind") :=
  claim_C10_isoc_kind_keyerror (fun q => q) (fun q => q) netTriv "w" noArgs noArgs
    1 0 0 true rfl rfl

/-- Counterexample to claim C1: a caller override of isoc_agelow together
with a scalar `t` does not survive into the submitted mapping; the computed
value wins, because `dict.update` writes the computed fields after the
overrides. -/
theorem claim_C1_counterexample :
    ((cmd3Args (.scalar 5) .none (.scalar 2) .none 0
        (setKey noArgs "isoc_agelow" (.num 99))).map
      (fun m => queryPost noArgs m "isoc_agelow") =
      .ok (some (.num 5))) ∧
    FVal.num 5 ≠ FVal.num 99 := by
  constructor
  · rfl
  · decide

/-- Claim C1 as amended: the translators merge the caller overrides first
and the computed fields after, so on key collision the computed field wins
in the submitted mapping; an override of a key the translator does not
compute still passes through and wins over the stored defaults. -/
theorem claim_C1_amended_computed_wins (defaults args : Args) (x z av : ℚ) (w : FVal) :
    ((cmd3Args (.scalar x) .none (.scalar z) .none av args).map
      (fun m => queryPost defaults m "isoc_agelow") = .ok (some (.num x))) ∧
    ((cmd3Args (.scalar x) .none (.scalar z) .none av
        (setKey args "photsys_file" w)).map
      (fun m => queryPost defaults m "photsys_file") = .ok (some w)) := by
  constructor
  · simp [cmd3Args, Except.map, queryPost, dictMerge, setKey]
  · simp [cmd3Args, Except.map, queryPost, dictMerge, setKey]

/-- Counterexample to claim C2: the classifier reports a length-1 sequence
as non-scalar, and under Schema-3 the sequence containing only 5 emits an
upper bound of 5 and a NaN step, unlike the bare number 5, which emits step
0 and no upper-bound field. -/
theorem claim_C2_counterexample :
    isscalar (Phys.arr [5]) = false ∧
    ((cmd3Args (.arr [5]) .none (.scalar 2) .none 0 noArgs).map
      (fun m => (m "isoc_agelow", m "isoc_ageupp", m "isoc_dage")) =
      .ok (some (.num 5), some (.num 5), some .nan)) ∧
    ((cmd3Args (.scalar 5) .none (.scalar 2) .none 0 noArgs).map
      (fun m => (m "isoc_agelow", m "isoc_ageupp", m "isoc_dage")) =
      .ok (some (.num 5), Option.none, some (.num 0))) := by
  refine ⟨rfl, ?_, ?_⟩ <;> rfl

/-- Claim C2 as amended: `isscalar` is false for every sequence, including
one of length 1, so under Schema-3 a length-1 sequence for `t` takes the
range branch: low bound and upper bound both equal to the single element,
and a step equal to the mean of an empty difference array, NaN. -/
theorem claim_C2_amended_len1_is_array (x z av : ℚ) :
    isscalar (Phys.arr [x]) = false ∧
    (cmd3Args (.arr [x]) .none (.scalar z) .none av noArgs).map
      (fun m => (m "isoc_isagelog", m "isoc_agelow", m "isoc_ageupp", m "isoc_dage")) =
      .ok (some (.num 0), some (.num x), some (.num x), some .nan) := by
  constructor
  · rfl
  · simp [cmd3Args, firstElem, lastElem, diffMean, diffList, meanVal,
      Except.map, setKey, noArgs]

/-- Claim C3: in the legacy translator, supplying `MeH` without `Z` derives
the abundance as Zsun times ten to the `MeH`, where Zsun is 0.0152 when the
effective isoc_kind value, the per-call override if present and the stored
default otherwise, starts with "parsec", and 0.019 otherwise. -/
theorem claim_C3_meh_to_z (pw lg : ℚ → ℚ) (defaults args : Args) (dk okind : String)
    (x m av : ℚ) (hd : defaults "isoc_kind" = some (.str dk)) :
    (args "isoc_kind" = Option.none →
      (cmd2Args pw lg defaults (.scalar x) .none .none (.scalar m) av args).map
        (fun a => a "isoc_zeta") =
        .ok (some (.num ((if strStarts dk "parsec" then (0.0152 : ℚ) else 0.019) * pw m)))) ∧
    (args "isoc_kind" = some (.str okind) →
      (cmd2Args pw lg defaults (.scalar x) .none .none (.scalar m) av args).map
        (fun a => a "isoc_zeta") =
        .ok (some (.num ((if strStarts okind "parsec" then (0.0152 : ℚ) else 0.019) * pw m)))) := by
  constructor
  · intro h
    simp [cmd2Args, hd, h, Except.map, setKey, physVal, isscalar]
  · intro h
    simp [cmd2Args, hd, h, Except.map, setKey, physVal, isscalar]

/-- Witness for C3: a stored parsec-family default with no per-call
override, and a legacy-family per-call override of a parsec default. -/
theorem claim_C3_witness :
    ((cmd2Args (fun q => q) (fun q => q)
        (setKey noArgs "isoc_kind" (.str "parsec_CAF09_v1.2S"))
        (.scalar 1) .none .none (.scalar 2) 0 noArgs).map
      (fun a => a "isoc_zeta") =
      .ok (some (.num ((if strStarts "parsec_CAF09_v1.2S" "parsec" then (0.0152 : ℚ)
        else 0.019) * 2)))) ∧
    ((cmd2Args (fun q => q) (fun q => q)
        (setKey noArgs "isoc_kind" (.str "parsec_CAF09_v1.2S"))
        (.scalar 1) .none .none (.scalar 2) 0
        (setKey noArgs "isoc_kind" (.str "ma08"))).map
      (fun a => a "isoc_zeta") =
      .ok (some (.num ((if strStarts "ma08" "parsec" then (0.0152 : ℚ) else 0.019) * 2)))) :=
  ⟨(claim_C3_meh_to_z (fun q => q) (fun q => q)
      (setKey noArgs "isoc_kind" (.str "parsec_CAF09_v1.2S")) noArgs
      "parsec_CAF09_v1.2S" "ma08" 1 2 0 (by decide)).1 (by decide),
   (claim_C3_meh_to_z (fun q => q) (fun q => q)
      (setKey noArgs "isoc_kind" (.str "parsec_CAF09_v1.2S"))
      (setKey noArgs "isoc_kind" (.str "ma08"))
      "parsec_CAF09_v1.2S" "ma08" 1 2 0 (by decide)).2 (by decide)⟩

/-- Claim C4: in the legacy translator, whenever both the age and the
metallicity parameter are array-valued after normalization, whether the age
array was given as `lgt` or as `t` and whether the metallicity array was
given as `Z` or derived from `MeH`, the call fails with the at-most-one-
array ValueError, for every network collaborator, so no submission is
made. -/
theorem claim_C4_conflict (pw lg : ℚ → ℚ) (net : Net) (website : String)
    (defaults args : Args) (a b c d : ℚ) (ls zs ms : List ℚ) (mh : Phys)
    (av : ℚ) (rt : Bool) (dk : String) :
    (queryIsochronesCmd2 pw lg net website defaults .none (.arr (a :: b :: ls))
        (.arr (c :: d :: zs)) mh av rt args = .error (.valueError msgConflict)) ∧
    (queryIsochronesCmd2 pw lg net website defaults (.arr (a :: b :: ls)) .none
        (.arr (c :: d :: zs)) mh av rt args = .error (.valueError msgConflict)) ∧
    (defaults "isoc_kind" = some (.str dk) → args "isoc_kind" = Option.none →
      queryIsochronesCmd2 pw lg net website defaults .none (.arr (a :: b :: ls))
        .none (.arr (c :: d :: ms)) av rt args = .error (.valueError msgConflict)) := by
  refine ⟨rfl, rfl, ?_⟩
  intro hd ha
  simp [queryIsochronesCmd2, cmd2Args, hd, ha, isscalar]

/-- Witness for C4: two-element log-age and `MeH` arrays with a stored
parsec-family isoc_kind default and no per-call override. -/
theorem claim_C4_witness :
    queryIsochronesCmd2 (fun q => q) (fun q => q) netTriv "w"
      (setKey noArgs "isoc_kind" (.str "parsec_CAF09_v1.2S")) .none
      (.arr [8, 9]) .none (.arr [0, 1]) 0 true noArgs =
      .error (.valueError msgConflict) :=
  (claim_C4_conflict (fun q => q) (fun q => q) netTriv "w"
      (setKey noArgs "isoc_kind" (.str "parsec_CAF09_v1.2S")) noArgs
      8 9 0 1 [] [] [] .none 0 true "parsec_CAF09_v1.2S").2.2 (by decide) (by decide)

/-- Claim C5: under Schema-3, a scalar age emits the is-log flag (0 for
`t`, 1 for `lgt`), the low bound equal to the value and a step of 0 with no
upper-bound field; a sequence of length at least 2 emits low equal to its
first element, upper equal to its last and step equal to the mean of the
consecutive differences; the metallicity pair is encoded with the same
shape under the isoc_ismetlog flag (0 for `Z`, 1 for `MeH`) and its own
field names. -/
theorem claim_C5_cmd3_encoding (x z av a b c d : ℚ) (rest rest2 : List ℚ) :
    ((cmd3Args (.scalar x) .none (.scalar z) .none av noArgs).map (fun m =>
        (m "isoc_isagelog", m "isoc_agelow", m "isoc_dage", m "isoc_ageupp")) =
      .ok (some (.num 0), some (.num x), some (.num 0), Option.none)) ∧
    ((cmd3Args .none (.scalar x) (.scalar z) .none av noArgs).map (fun m =>
        (m "isoc_isagelog", m "isoc_lagelow", m "isoc_dlage", m "isoc_lageupp")) =
      .ok (some (.num 1), some (.num x), some (.num 0), Option.none)) ∧
    ((cmd3Args (.arr (a :: b :: rest)) .none (.scalar z) .none av noArgs).map (fun m =>
        (m "isoc_isagelog", m "isoc_agelow", m "isoc_ageupp", m "isoc_dage")) =
      .ok (some (.num 0), some (.num a), some (.num (lastD (a :: b :: rest))),
        some (.num (meanQ (diffList (a :: b :: rest)))))) ∧
    ((cmd3Args .none (.arr (a :: b :: rest)) (.scalar z) .none av noArgs).map (fun m =>
        (m "isoc_isagelog", m "isoc_lagelow", m "isoc_lageupp", m "isoc_dlage")) =
      .ok (some (.num 1), some (.num a), some (.num (lastD (a :: b :: rest))),
        some (.num (meanQ (diffList (a :: b :: rest)))))) ∧
    ((cmd3Args (.scalar x) .none (.scalar z) .none av noArgs).map (fun m =>
        (m "isoc_ismetlog", m "isoc_zlow", m "isoc_dz", m "isoc_zupp")) =
      .ok (some (.num 0), some (.num z), some (.num 0), Option.none)) ∧
    ((cmd3Args (.scalar x) .none .none (.scalar z) av noArgs).map (fun m =>
        (m "isoc_ismetlog", m "isoc_metlow", m "isoc_dmet", m "isoc_metupp")) =
      .ok (some (.num 1), some (.num z), some (.num 0), Option.none)) ∧
    ((cmd3Args (.scalar x) .none (.arr (c :: d :: rest2)) .none av noArgs).map (fun m =>
        (m "isoc_ismetlog", m "isoc_zlow", m "isoc_zupp", m "isoc_dz")) =
      .ok (some (.num 0), some (.num c), some (.num (lastD (c :: d :: rest2))),
        some (.num (meanQ (diffList (c :: d :: rest2)))))) ∧
    ((cmd3Args (.scalar x) .none .none (.arr (c :: d :: rest2)) av noArgs).map (fun m =>
        (m "isoc_ismetlog", m "isoc_metlow", m "isoc_metupp", m "isoc_dmet")) =
      .ok (some (.num 1), some (.num c), some (.num (lastD (c :: d :: rest2))),
        some (.num (meanQ (diffList (c :: d :: rest2)))))) := by
  refine ⟨?_, ?_, ?_, ?_, ?_, ?_, ?_, ?_⟩ <;>
    simp [cmd3Args, firstElem, lastElem_eq_lastD, diffMean_two,
      Except.map, setKey, noArgs]

/-- Claim C9: when a table is requested and the artifact was fetched, a
decoded artifact text with no leading comment-marker line, including the
empty text, makes table parsing fail with the uninitialized-header
NameError rather than any ValueError. -/
theorem claim_C9_missing_header_nameerror (out : String)
    (h : headerScan (splitLines out) Option.none = Option.none) :
    parseTable out = .error (.nameError "header") ∧
    (∀ (net : Net) (website href : String) (ews fts : List String),
      (if strEnds (net.joinUrl website href) ".gz"
        then net.gunzip (net.fetchBytes (net.joinUrl website href))
        else net.fetchBytes (net.joinUrl website href)) = out →
      resolveResponse net website true (ResponseDoc.mk [href] ews fts) =
        .error (.nameError "header")) := by
  constructor
  · simp [parseTable, h]
  · intro net website href ews fts hout
    simp only [resolveResponse]
    rw [hout]
    simp [parseTable, h]

/-- Witness for C9: the empty artifact, fetched uncompressed through the
trivial collaborators. -/
theorem claim_C9_witness :
    parseTable "" = .error (.nameError "header") ∧
    resolveResponse netTriv "w" true (ResponseDoc.mk ["h"] [] []) =
      .error (.nameError "header") :=
  ⟨(claim_C9_missing_header_nameerror "" (by decide)).1,
   (claim_C9_missing_header_nameerror "" (by decide)).2 netTriv "w" "h" [] []
     (by decide)⟩

end Parsec
